import Mathlib

/-!
Shallow embedding of the News-Scraper pipeline (model.py, utils.py,
lambda_function-2.py, lambda_function-4.py).

External services (OpenAI chat, OpenAI embeddings, Pinecone query) are modelled
as oracles collected in an `Env` record; every call to an oracle is recorded in
an event trace so that claims about which calls are made (and in which order)
can be stated.  Embedding vectors are opaque (`Nat` identifiers): nothing in
the code inspects a vector, it is only produced by the embedding call and
passed to the vector store.  Similarity scores are rationals (`Rat`), the
source compares them against the float literal `0.7`.
-/

namespace NewsScraper

/-- Python exceptions are modelled by their message. -/
abbrev PyErr := String

/-- The metadata stored with every Pinecone vector (utils.py line 132-136).
Every upsert writes exactly the keys `title`, `content`, `posted_time`, so a
Pinecone match's metadata is modelled as this record; the empty dict returned
by `get_similar_news` when no match scores above the threshold is modelled as
`none` at the use sites (a non-empty dict is truthy in Python, a 3-key record
is always truthy). -/
structure Metadata where
  title : String
  content : String
  posted_time : String
deriving DecidableEq

/-- One match returned by a Pinecone query: a similarity score and the stored
metadata (utils.py lines 165-169 reads `result["score"]` and
`result["metadata"]`). -/
structure PcMatch where
  score : Rat
  metadata : Metadata
deriving DecidableEq

/-- The similarity threshold `0.7` of utils.py line 167, as the rational 7/10. -/
def simThreshold : Rat := ⟨7, 10, by norm_num, by norm_num⟩

/-- The three JSON-mode chat prompts built by utils.py.  Each prompt is a
constant template interpolating exactly the arguments recorded here
(`check_if_related_to_car_accidents` lines 256-263,
`check_if_news_already_exists` lines 191-198, `generate_content_using_AI`
lines 303-337), so the prompt construction is modelled by the injection of the
interpolated data into this datatype. -/
inductive ChatPrompt
  | relevance (title content : String)
  | sameNews (title content posted_time : String) (other : Metadata)
  | rewrite (title content : String)
deriving DecidableEq

/-- A JSON object response from the chat API in JSON mode: a finite map from
keys to string values (all expected responses carry string fields; a non-string
field would simply compare unequal to any string, which this model realises by
an appropriate string value). -/
abbrev JsonObj := List (String × String)

/-- Python `obj[key]` on a parsed JSON dict: the value, or a KeyError. -/
def jsonGet (j : JsonObj) (k : String) : Except PyErr String :=
  match j.lookup k with
  | some v => .ok v
  | none => .error ("KeyError: " ++ k)

/-- Trace events recording each external call the code makes. -/
inductive Event
  | chat (p : ChatPrompt)
  | embed (text : String)
  | vquery (vector : Option Nat) (topK : Nat)
  | vupsert (id : String)
  | dbGet (url : String)
  | dbPut (url : String)
  | retitle (title content : String)
deriving DecidableEq

/-- The environment of external services.
`chat` is `client.chat.completions.create` + `json.loads` in JSON mode
(utils.py lines 216-228): an error covers both a failed API call and a
malformed (non-JSON) body, since both raise inside the `try` of `openai_chat`.
`embedClient` is `client.embeddings.create` (utils.py lines 95-98).
`pcQuery` is `pc_index.query` on a real vector, given `top_k`
(utils.py lines 159-164).
`retitleChat` is the LLM call made by `generate_title_again`
(imported by every pipeline; its defining module is not among the sources).
`now` is `datetime.now(timezone.utc)` formatted as in model.py line 58. -/
structure Env where
  chat : ChatPrompt → Except PyErr JsonObj
  embedClient : String → Except PyErr Nat
  pcQuery : Nat → Nat → Except PyErr (List PcMatch)
  retitleChat : String → String → Except PyErr String
  now : String

/-- A live Pinecone index handle carries no data in this model (the index
contents live behind the `pcQuery` oracle); what matters to the code is only
whether the handle is `None` (falsy) or not. -/
abbrev PcIndex := Unit

/-- utils.py `openai_chat` in JSON mode: performs the call; on an exception it
logs and re-raises (lines 240-242), so it is the identity on the oracle's
outcome.  The call is recorded in the trace. -/
def openai_chat (env : Env) (prompt : ChatPrompt) :
    Except PyErr JsonObj × List Event :=
  (env.chat prompt, [Event.chat prompt])

/-- utils.py `get_embedding_openai`: returns the embedding, or `None` after
catching any exception (lines 94-102). -/
def get_embedding_openai (env : Env) (text : String) :
    Option Nat × List Event :=
  (match env.embedClient text with
   | .ok e => some e
   | .error _ => none,
   [Event.embed text])

/-- A `pc_index.query` call as issued by `get_similar_news` (utils.py lines
159-164), taking the vector argument that the code computed — which is `None`
when the embedding call failed.  The Pinecone client rejects a `None` vector
with an exception. -/
def pcQueryCall (env : Env) (vector : Option Nat) (topK : Nat) :
    Except PyErr (List PcMatch) × List Event :=
  (match vector with
   | none => .error "Pinecone query: vector is None"
   | some v => env.pcQuery v topK,
   [Event.vquery vector topK])

/-- The embedded text `f"Title: {title}\n\nContent: {content}"` used both by
the similarity query (utils.py line 158) and the upsert (line 124). -/
def queryText (title content : String) : String :=
  "Title: " ++ title ++ "\n\nContent: " ++ content

/-- The loop of utils.py lines 166-169: the metadata of the first match whose
score strictly exceeds 0.7, else the empty dict (`none`). -/
def firstAboveThreshold : List PcMatch → Option Metadata
  | [] => none
  | m :: ms =>
      if simThreshold < m.score then some m.metadata else firstAboveThreshold ms

/-- utils.py `get_similar_news` (lines 145-170): embeds the title+content text,
queries Pinecone with `top_k=1`, and keeps the first match above the
threshold. -/
def get_similar_news (env : Env) (title content : String) :
    Except PyErr (Option Metadata) × List Event :=
  let (emb, t1) := get_embedding_openai env (queryText title content)
  let (resp, t2) := pcQueryCall env emb 1
  (resp.map firstAboveThreshold, t1 ++ t2)

/-- utils.py `check_if_news_already_exists` (lines 173-200): if no similar news
was found the answer is `False` without an LLM call; otherwise the LLM is asked
whether the two news items are the same and the answer is `True` exactly for
`"yes"`. -/
def check_if_news_already_exists (env : Env)
    (title content posted_time : String) : Except PyErr Bool × List Event :=
  let (sim, t1) := get_similar_news env title content
  match sim with
  | .error e => (.error e, t1)
  | .ok none => (.ok false, t1)
  | .ok (some sn) =>
      let (ans, t2) := openai_chat env (ChatPrompt.sameNews title content posted_time sn)
      (match ans with
       | .error e => .error e
       | .ok j =>
           match jsonGet j "answer" with
           | .error e => .error e
           | .ok a => .ok (a == "yes"),
       t1 ++ t2)

/-- utils.py `check_if_related_to_car_accidents` (lines 245-265): asks the LLM
the relevance question and returns `True` exactly for a `"yes"` answer; an
exception from `openai_chat` or a missing `"answer"` key propagates. -/
def check_if_related_to_car_accidents (env : Env) (title content : String) :
    Except PyErr Bool × List Event :=
  let (ans, t1) := openai_chat env (ChatPrompt.relevance title content)
  (match ans with
   | .error e => .error e
   | .ok j =>
       match jsonGet j "answer" with
       | .error e => .error e
       | .ok a => .ok (a == "yes"),
   t1)

/-- utils.py `check_if_is_new_car_accident_related_news` (lines 268-288):
`ok = False; if related: ok = True; if pc_index and exists(...): ok = False;
return ok`.  The duplicate check runs only when the relevance check passed and
the index handle is truthy. -/
def check_if_is_new_car_accident_related_news (env : Env)
    (pc_index : Option PcIndex) (title content posted_time : String) :
    Except PyErr Bool × List Event :=
  let (rel, t1) := check_if_related_to_car_accidents env title content
  match rel with
  | .error e => (.error e, t1)
  | .ok false => (.ok false, t1)
  | .ok true =>
      match pc_index with
      | none => (.ok true, t1)
      | some _ =>
          let (ex, t2) := check_if_news_already_exists env title content posted_time
          (match ex with
           | .error e => .error e
           | .ok d => .ok (!d),
           t1 ++ t2)

/-- utils.py `generate_content_using_AI` (lines 291-346): one rewrite chat call
whose JSON response is read at the four fixed keys; a missing key raises
KeyError, an API failure propagates from `openai_chat`. -/
def generate_content_using_AI (env : Env) (title content : String) :
    Except PyErr (String × String × String × String) × List Event :=
  let (resp, t1) := openai_chat env (ChatPrompt.rewrite title content)
  (match resp with
   | .error e => .error e
   | .ok j => do
       let a ← jsonGet j "Rewritten article"
       let b ← jsonGet j "Call to action"
       let c ← jsonGet j "SEO-optimized title"
       let d ← jsonGet j "One-sentence description"
       .ok (a, b, c, d),
   t1)

/-- Modelled from the spec: `generate_title_again` is imported and called by
every pipeline (e.g. lambda_function-2.py line 18 / line 136) but the module
defining it is not among the source files.  Per the spec it re-derives a
punchier display title from the original title and content with a distinct LLM
prompt; it is modelled as an uninterpreted LLM call recorded in the trace. -/
def generate_title_again (env : Env) (title content : String) :
    Except PyErr String × List Event :=
  (env.retitleChat title content, [Event.retitle title content])

/-- One entry of the Pinecone index as written by
`upsert_into_pinecone_index`. -/
structure VectorEntry where
  id : String
  values : Nat
  metadata : Metadata
deriving DecidableEq

/-- The vector-index contents, as a list of entries. -/
abbrev VIndex := List VectorEntry

/-- Pinecone upsert semantics: overwrite the entry with the same id, else
append. -/
def vindexPut (vidx : VIndex) (e : VectorEntry) : VIndex :=
  if vidx.any (·.id == e.id) then
    vidx.map (fun x => if x.id == e.id then e else x)
  else vidx ++ [e]

/-- utils.py `upsert_into_pinecone_index` (lines 106-142): derives the key
`pg-{pid}`, embeds `Title: {title}\n\nContent: {content}`, and upserts a vector
with metadata `{title, content, posted_time}`.  When the embedding call failed
(`vector_data is None`) the Pinecone client rejects the upsert with an
exception (the code does not check for `None`). -/
def upsert_into_pinecone_index (env : Env) (vidx : VIndex)
    (pid title content posted_time : String) :
    Except PyErr VIndex × List Event :=
  let page_id := "pg-" ++ pid
  let (vd, t1) := get_embedding_openai env (queryText title content)
  (match vd with
   | none => .error "Pinecone upsert: vector values are None"
   | some v =>
       .ok (vindexPut vidx
         { id := page_id, values := v
           metadata := { title := title, content := content, posted_time := posted_time } }),
   t1 ++ [Event.vupsert page_id])

/-- The article record assembled by the pipelines before the sink insert.
At each `db.insert` call site every one of these keys is present in the Python
dict, so the `.get(..., default)` fallbacks of model.py never fire. -/
structure Article where
  news_url : String
  title : String
  author : String
  posted_time : String
  content : String
  call_to_action : String
  is_related : Bool
  title_seo_optimized : String
  one_sentence_description : String
deriving DecidableEq

/-- One item of the DynamoDB table, as written by `DynamoDB.insert`
(model.py lines 44-61): the article fields plus the server-side derived
`wordcount` and `timestamp`. -/
structure StoredItem where
  news_url : String
  title : String
  author : String
  posted_time : String
  content : String
  call_to_action : String
  is_related : Bool
  title_seo_optimized : String
  one_sentence_description : String
  wordcount : Nat
  timestamp : String
deriving DecidableEq

/-- The DynamoDB table contents, keyed by `news_url`. -/
abbrev Store := List StoredItem

/-- Python `content.split()`: split on runs of whitespace, dropping empty
pieces (ASCII whitespace; the pipeline feeds it scraped/LLM text). -/
def pySplitGo : List Char → List Char → List (List Char)
  | [], acc => if acc.isEmpty then [] else [acc.reverse]
  | c :: cs, acc =>
      if c.isWhitespace then
        (if acc.isEmpty then [] else [acc.reverse]) ++ pySplitGo cs []
      else pySplitGo cs (c :: acc)

/-- `len(content.split())`, the `wordcount` of model.py line 57. -/
def pyWordCount (s : String) : Nat := (pySplitGo s.data []).length

namespace DynamoDB

/-- Whether the table holds an item with the given primary key. -/
def hasUrl (store : Store) (url : String) : Bool :=
  store.any (·.news_url == url)

/-- model.py `DynamoDB.query` (lines 71-89): key lookup, `True` iff an item
with that `news_url` exists. -/
def query (store : Store) (url : String) : Bool := hasUrl store url

/-- model.py `DynamoDB.insert` (lines 31-69): a conditional `put_item` with
`ConditionExpression="attribute_not_exists(news_url)"` — the write succeeds
exactly when no item with that key exists; on a conditional-check failure the
exception is caught, `False` is returned and the table is untouched.
`wordcount` and `timestamp` are computed server-side at insert time
(`now` stands for the formatted `datetime.now(timezone.utc)`). -/
def insert (store : Store) (now : String) (a : Article) : Bool × Store :=
  if hasUrl store a.news_url then (false, store)
  else
    (true,
     store ++
       [{ news_url := a.news_url, title := a.title, author := a.author
          posted_time := a.posted_time, content := a.content
          call_to_action := a.call_to_action, is_related := a.is_related
          title_seo_optimized := a.title_seo_optimized
          one_sentence_description := a.one_sentence_description
          wordcount := pyWordCount a.content, timestamp := now }])

end DynamoDB

/-- The number of stored items carrying a given `news_url`. -/
def urlCount (store : Store) (url : String) : Nat :=
  (store.filter (·.news_url == url)).length

/-- A candidate article as produced by a site-specific extractor (listing walk
plus detail fetch); the HTML-selector extraction itself is an external
collaborator in the spec's architecture, so the pipeline step takes its output
as input. -/
structure RawArticle where
  title : String
  news_url : String
  author : String
  posted_time : String
  content : String
deriving DecidableEq

/-- Result of one KTLA-style loop-body execution (lambda_function-2.py lines
120-167): the outcome (the collected related article, if any — or the
uncaught exception, since `KTLA_Scraper.run` has no per-article handler), the
DynamoDB state, the vector-index state, and the event trace.  External-store
effects that happened before a raise persist. -/
structure KtlaStep where
  outcome : Except PyErr (Option Article)
  db : Store
  vidx : VIndex
  trace : List Event

/-- The body of the inner loop of `KTLA_Scraper.run` (lambda_function-2.py
lines 120-167) for one already-parsed candidate: dedup gate, classifier,
rewrite + retitle when accepted, conditional insert, and the guarded Pinecone
upsert. -/
def ktlaProcess (env : Env) (db : Store) (vidx : VIndex) (a : RawArticle) :
    KtlaStep :=
  if DynamoDB.query db a.news_url then
    { outcome := .ok none, db := db, vidx := vidx, trace := [Event.dbGet a.news_url] }
  else
    let (rel, t1) := check_if_is_new_car_accident_related_news env (some ())
      a.title a.content a.posted_time
    match rel with
    | .error e =>
        { outcome := .error e, db := db, vidx := vidx
          trace := Event.dbGet a.news_url :: t1 }
    | .ok true =>
        let (gen, t2) := generate_content_using_AI env a.title a.content
        match gen with
        | .error e =>
            { outcome := .error e, db := db, vidx := vidx
              trace := Event.dbGet a.news_url :: (t1 ++ t2) }
        | .ok (content_ai, call_to_action, title_seo_optimized, one_sentence_description) =>
            let (nt, t3) := generate_title_again env a.title a.content
            match nt with
            | .error e =>
                { outcome := .error e, db := db, vidx := vidx
                  trace := Event.dbGet a.news_url :: (t1 ++ t2 ++ t3) }
            | .ok newTitle =>
                let art : Article :=
                  { news_url := a.news_url, title := newTitle, author := a.author
                    posted_time := a.posted_time, content := content_ai
                    call_to_action := call_to_action, is_related := true
                    title_seo_optimized := title_seo_optimized
                    one_sentence_description := one_sentence_description }
                let ins := DynamoDB.insert db env.now art
                let (up, t4) := upsert_into_pinecone_index env vidx a.news_url
                  art.title art.content art.posted_time
                match up with
                | .error e =>
                    { outcome := .error e, db := ins.2, vidx := vidx
                      trace := Event.dbGet a.news_url ::
                        (t1 ++ t2 ++ t3 ++ Event.dbPut a.news_url :: t4) }
                | .ok vidx' =>
                    { outcome := .ok (some art), db := ins.2, vidx := vidx'
                      trace := Event.dbGet a.news_url ::
                        (t1 ++ t2 ++ t3 ++ Event.dbPut a.news_url :: t4) }
    | .ok false =>
        let art : Article :=
          { news_url := a.news_url, title := a.title, author := a.author
            posted_time := a.posted_time, content := "", call_to_action := ""
            is_related := false, title_seo_optimized := ""
            one_sentence_description := "" }
        let ins := DynamoDB.insert db env.now art
        { outcome := .ok none, db := ins.2, vidx := vidx
          trace := Event.dbGet a.news_url :: (t1 ++ [Event.dbPut a.news_url]) }

/-- Result of one `CBS8NewsScraper.get_details_from_story_page` execution
(lambda_function-4.py lines 90-178): that method catches every exception
itself and returns a `bool`, so there is no error outcome; the article is
appended to `self.related_articles` before the insert/upsert, so it stays
collected even when a later upsert raises. -/
structure Cbs8Step where
  retOk : Bool
  db : Store
  vidx : VIndex
  collected : Option Article
  trace : List Event
deriving DecidableEq

/-- The processing core of `CBS8NewsScraper.get_details_from_story_page`
(lambda_function-4.py lines 134-178) for one already-parsed candidate (the
dedup gate runs in the caller `extract_stories`).  Note line 161: the accepted
article is stored with `"call_to_action": ""` even though the rewrite call
produced one. -/
def cbs8Process (env : Env) (db : Store) (vidx : VIndex) (a : RawArticle) :
    Cbs8Step :=
  let (rel, t1) := check_if_is_new_car_accident_related_news env (some ())
    a.title a.content a.posted_time
  match rel with
  | .error _ => { retOk := false, db := db, vidx := vidx, collected := none, trace := t1 }
  | .ok true =>
      let (gen, t2) := generate_content_using_AI env a.title a.content
      match gen with
      | .error _ =>
          { retOk := false, db := db, vidx := vidx, collected := none, trace := t1 ++ t2 }
      | .ok (content_ai, _call_to_action, title_seo_optimized, one_sentence_description) =>
          let (nt, t3) := generate_title_again env a.title a.content
          match nt with
          | .error _ =>
              { retOk := false, db := db, vidx := vidx, collected := none
                trace := t1 ++ t2 ++ t3 }
          | .ok newTitle =>
              let art : Article :=
                { news_url := a.news_url, title := newTitle, author := a.author
                  posted_time := a.posted_time, content := content_ai
                  call_to_action := "", is_related := true
                  title_seo_optimized := title_seo_optimized
                  one_sentence_description := one_sentence_description }
              let ins := DynamoDB.insert db env.now art
              let (up, t4) := upsert_into_pinecone_index env vidx a.news_url
                newTitle content_ai a.posted_time
              match up with
              | .error _ =>
                  { retOk := false, db := ins.2, vidx := vidx, collected := some art
                    trace := t1 ++ t2 ++ t3 ++ Event.dbPut a.news_url :: t4 }
              | .ok vidx' =>
                  { retOk := true, db := ins.2, vidx := vidx', collected := some art
                    trace := t1 ++ t2 ++ t3 ++ Event.dbPut a.news_url :: t4 }
  | .ok false =>
      let art : Article :=
        { news_url := a.news_url, title := a.title, author := a.author
          posted_time := a.posted_time, content := "", call_to_action := ""
          is_related := false, title_seo_optimized := ""
          one_sentence_description := "" }
      let ins := DynamoDB.insert db env.now art
      { retOk := true, db := ins.2, vidx := vidx, collected := none
        trace := t1 ++ [Event.dbPut a.news_url] }

/-- The three sources run by the `lambda_handler` of lambda_function-2.py. -/
inductive SourceV2
  | ktla
  | ksby
  | nbc
deriving DecidableEq

/-- The four sources run by the `lambda_handler` of lambda_function-4.py. -/
inductive SourceV4
  | cbs8
  | eastBay
  | fox
  | nbcBay
deriving DecidableEq

/-- The orchestrator of lambda_function-2.py (lines 456-525), with each
scraper's whole `run()` abstracted as an oracle returning its related-article
list or raising.  A single `try` surrounds everything: the first raising
source falls through to the outer handler, which returns status 500 and posts
nothing.  On success the combined list (KSBY + KTLA + NBC, line 491) is posted
to the webhook when non-empty.  The pair is (statusCode, webhook payload). -/
def lambda_handler_v2 (initOk : Bool)
    (runs : SourceV2 → Except PyErr (List Article)) :
    Nat × Option (List Article) :=
  if initOk then
    match runs .ktla with
    | .error _ => (500, none)
    | .ok ktla =>
        match runs .ksby with
        | .error _ => (500, none)
        | .ok ksby =>
            match runs .nbc with
            | .error _ => (500, none)
            | .ok nbc =>
                let all := ksby ++ ktla ++ nbc
                (200, if all.isEmpty then none else some all)
  else (500, none)

/-- The orchestrator of lambda_function-4.py (lines 762-862): each source run
sits in its own `try/except` (lines 790-824), so a raising source contributes
nothing and the next source still runs; the accumulated list is posted when
non-empty. -/
def lambda_handler_v4 (initOk : Bool)
    (runs : SourceV4 → Except PyErr (List Article)) :
    Nat × Option (List Article) :=
  if initOk then
    let step := fun (acc : List Article) (s : SourceV4) =>
      match runs s with
      | .ok l => acc ++ l
      | .error _ => acc
    let all := step (step (step (step [] .cbs8) .eastBay) .fox) .nbcBay
    (200, if all.isEmpty then none else some all)
  else (500, none)

/-- Selects the trace events that belong to the persistence step: the retitle
call and the sink insert.  Used to state that the retitle runs exactly once
and before the insert. -/
def retitleOrPut : Event → Bool
  | .retitle _ _ => true
  | .dbPut _ => true
  | _ => false

/-- A similarity score of 0.9, above the 0.7 threshold. -/
def scoreHi : Rat := ⟨9, 10, by norm_num, by norm_num⟩

/-- Metadata of a previously indexed article, used in concrete scenarios. -/
def mdHi : Metadata := { title := "t0", content := "c0", posted_time := "p0" }

/-- Concrete environment: relevant, no vector match, rewrite succeeds with
non-empty fields, retitle succeeds. -/
def envYesNoDup : Env where
  chat := fun p =>
    match p with
    | .relevance _ _ => .ok [("answer", "yes")]
    | .sameNews _ _ _ _ => .ok [("answer", "no")]
    | .rewrite _ _ =>
        .ok [("Rewritten article", "<p>Body</p>"),
             ("Call to action", "<h2>Act</h2>"),
             ("SEO-optimized title", "Seo Title"),
             ("One-sentence description", "Desc")]
  embedClient := fun _ => .ok 0
  pcQuery := fun _ _ => .ok []
  retitleChat := fun t _ => .ok ("Better " ++ t)
  now := "2026-01-01T00:00:00.000000Z"

/-- Concrete environment: the vector store returns one neighbor scoring 0.9
and the same-news question is answered yes. -/
def envDupYes : Env where
  chat := fun p =>
    match p with
    | .relevance _ _ => .ok [("answer", "yes")]
    | .sameNews _ _ _ _ => .ok [("answer", "yes")]
    | .rewrite _ _ => .ok []
  embedClient := fun _ => .ok 3
  pcQuery := fun _ _ => .ok [{ score := scoreHi, metadata := mdHi }]
  retitleChat := fun _ _ => .ok "X"
  now := "2026-01-01T00:00:00.000000Z"

/-- Concrete environment: the relevance question is answered no. -/
def envNo : Env where
  chat := fun _ => .ok [("answer", "no")]
  embedClient := fun _ => .ok 0
  pcQuery := fun _ _ => .ok []
  retitleChat := fun t _ => .ok t
  now := "2026-01-01T00:00:00.000000Z"

/-- Concrete environment: every chat call raises. -/
def envChatFail : Env where
  chat := fun _ => .error "APIConnectionError"
  embedClient := fun _ => .ok 0
  pcQuery := fun _ _ => .ok []
  retitleChat := fun _ _ => .error "APIConnectionError"
  now := ""

/-- Concrete environment: the vector-store query raises. -/
def envQueryFail : Env where
  chat := fun p =>
    match p with
    | .relevance _ _ => .ok [("answer", "yes")]
    | _ => .ok [("answer", "no")]
  embedClient := fun _ => .ok 0
  pcQuery := fun _ _ => .error "Pinecone ServiceException"
  retitleChat := fun _ _ => .ok "X"
  now := ""

/-- Concrete environment: the embedding call raises. -/
def envEmbedFail : Env where
  chat := fun _ => .ok [("answer", "yes")]
  embedClient := fun _ => .error "EmbedError"
  pcQuery := fun _ _ => .ok []
  retitleChat := fun _ _ => .ok "X"
  now := ""

/-- A concrete parsed candidate article. -/
def rawA : RawArticle where
  title := "Crash on I-5"
  news_url := "https://example.com/a"
  author := "Jane Doe"
  posted_time := "2026-01-01"
  content := "Two cars collided."

/-- A concrete accepted article, used as another source's contribution. -/
def artX : Article where
  news_url := "https://example.com/x"
  title := "T"
  author := "A"
  posted_time := "P"
  content := "C"
  call_to_action := "CTA"
  is_related := true
  title_seo_optimized := "S"
  one_sentence_description := "O"

/-- Concrete source runs for lambda_function-2.py's handler: KTLA raises,
KSBY returns one accepted article, NBC returns none. -/
def runsBadV2 : SourceV2 → Except PyErr (List Article)
  | .ktla => .error "boom"
  | .ksby => .ok [artX]
  | .nbc => .ok []

/-- A concrete article for the persistence-sink scenario. -/
def artW : Article where
  news_url := "https://example.com/w"
  title := "First title"
  author := "A"
  posted_time := "P"
  content := "two words"
  call_to_action := "cta"
  is_related := true
  title_seo_optimized := "seo"
  one_sentence_description := "one"

/-- A second article with the same `news_url` as `artW` but different
contents. -/
def artW2 : Article where
  news_url := "https://example.com/w"
  title := "Second title"
  author := "B"
  posted_time := "Q"
  content := "other"
  call_to_action := ""
  is_related := false
  title_seo_optimized := ""
  one_sentence_description := ""

/-- The record stored for a rejected article by both embedded pipelines:
original title/author/posted_time, the four AI-derived fields empty,
`is_related` false. -/
def rejectedStored (a : RawArticle) (now : String) : StoredItem where
  news_url := a.news_url
  title := a.title
  author := a.author
  posted_time := a.posted_time
  content := ""
  call_to_action := ""
  is_related := false
  title_seo_optimized := ""
  one_sentence_description := ""
  wordcount := pyWordCount ""
  timestamp := now

/-- The record stored for an accepted article by the KTLA pipeline: retitled
title, the four AI outputs, `is_related` true. -/
def acceptedStoredKtla (a : RawArticle) (now nt cai cta seo one : String) :
    StoredItem where
  news_url := a.news_url
  title := nt
  author := a.author
  posted_time := a.posted_time
  content := cai
  call_to_action := cta
  is_related := true
  title_seo_optimized := seo
  one_sentence_description := one
  wordcount := pyWordCount cai
  timestamp := now

/-- The record stored for an accepted article by the CBS8 pipeline: like the
KTLA one except that `call_to_action` is stored as the empty string
(lambda_function-4.py line 161). -/
def acceptedStoredCbs8 (a : RawArticle) (now nt cai seo one : String) :
    StoredItem where
  news_url := a.news_url
  title := nt
  author := a.author
  posted_time := a.posted_time
  content := cai
  call_to_action := ""
  is_related := true
  title_seo_optimized := seo
  one_sentence_description := one
  wordcount := pyWordCount cai
  timestamp := now

/-- The in-memory article collected for the webhook by the KTLA pipeline for
an accepted candidate. -/
def acceptedArtKtla (a : RawArticle) (nt cai cta seo one : String) : Article where
  news_url := a.news_url
  title := nt
  author := a.author
  posted_time := a.posted_time
  content := cai
  call_to_action := cta
  is_related := true
  title_seo_optimized := seo
  one_sentence_description := one

/-- The in-memory article collected for the webhook by the CBS8 pipeline for
an accepted candidate (`call_to_action` empty). -/
def acceptedArtCbs8 (a : RawArticle) (nt cai seo one : String) : Article where
  news_url := a.news_url
  title := nt
  author := a.author
  posted_time := a.posted_time
  content := cai
  call_to_action := ""
  is_related := true
  title_seo_optimized := seo
  one_sentence_description := one

/-- The vector entry upserted for an accepted article: key `pg-{news_url}`,
the embedding of the (retitled title, AI content) text, and metadata
`{title, content, posted_time}`. -/
def acceptedEntry (a : RawArticle) (nt cai : String) (v : Nat) : VectorEntry where
  id := "pg-" ++ a.news_url
  values := v
  metadata := { title := nt, content := cai, posted_time := a.posted_time }

theorem simThreshold_eq : simThreshold = 7 / 10 := by
  unfold simThreshold
  rw [Rat.mk'_eq_divInt, Rat.divInt_eq_div]
  norm_num

theorem firstAboveThreshold_eq_none (ms : List PcMatch)
    (h : ∀ m ∈ ms, ¬ simThreshold < m.score) : firstAboveThreshold ms = none := by
  induction ms with
  | nil => rfl
  | cons m ms ih =>
      unfold firstAboveThreshold
      rw [if_neg (h m (by simp))]
      exact ih fun x hx => h x (by simp [hx])

/-- The relevance check performs exactly one chat call. -/
theorem relevance_trace (env : Env) (t c : String) :
    (check_if_related_to_car_accidents env t c).2
      = [Event.chat (ChatPrompt.relevance t c)] := rfl

/-- The duplicate check only performs embedding, vector-query and chat calls,
so a filter selecting any other kind of event over its trace is empty. -/
theorem exists_trace_filter (env : Env) (t c p : String) (P : Event → Bool)
    (h1 : ∀ q, P (Event.chat q) = false)
    (h2 : ∀ s, P (Event.embed s) = false)
    (h3 : ∀ v k, P (Event.vquery v k) = false) :
    ((check_if_news_already_exists env t c p).2).filter P = [] := by
  cases hE : env.embedClient (queryText t c) with
  | error e =>
      simp [check_if_news_already_exists, get_similar_news, get_embedding_openai,
        pcQueryCall, openai_chat, hE, h1, h2, h3, List.filter]
  | ok v =>
      cases hQ : env.pcQuery v 1 with
      | error e =>
          simp [check_if_news_already_exists, get_similar_news, get_embedding_openai,
            pcQueryCall, openai_chat, hE, hQ, h1, h2, h3, List.filter]
      | ok ms =>
          cases hF : firstAboveThreshold ms with
          | none =>
              simp [check_if_news_already_exists, get_similar_news,
                get_embedding_openai, pcQueryCall, openai_chat, hE, hQ, hF,
                Except.map, h1, h2, h3, List.filter]
          | some sn =>
              simp [check_if_news_already_exists, get_similar_news,
                get_embedding_openai, pcQueryCall, openai_chat, hE, hQ, hF,
                Except.map, h1, h2, h3, List.filter]

/-- The classifier only performs chat, embedding and vector-query calls, so a
filter selecting any other kind of event over its trace is empty. -/
theorem classify_trace_filter (env : Env) (pc_index : Option PcIndex)
    (t c p : String) (P : Event → Bool)
    (h1 : ∀ q, P (Event.chat q) = false)
    (h2 : ∀ s, P (Event.embed s) = false)
    (h3 : ∀ v k, P (Event.vquery v k) = false) :
    ((check_if_is_new_car_accident_related_news env pc_index t c p).2).filter P
      = [] := by
  unfold check_if_is_new_car_accident_related_news
  cases hR : check_if_related_to_car_accidents env t c with
  | mk rel tr =>
      have htr : tr.filter P = [] := by
        have h : tr = [Event.chat (ChatPrompt.relevance t c)] := by
          have h0 := relevance_trace env t c
          rw [hR] at h0
          exact h0
        rw [h]
        simp [List.filter, h1]
      cases rel with
      | error e => simpa using htr
      | ok b =>
          cases b with
          | false => simpa using htr
          | true =>
              cases pc_index with
              | none => simpa using htr
              | some u =>
                  cases u
                  cases hX : check_if_news_already_exists env t c p with
                  | mk ex tex =>
                      have htex : tex.filter P = [] := by
                        have h := exists_trace_filter env t c p P h1 h2 h3
                        rw [hX] at h
                        exact h
                      cases ex <;> simp [List.filter_append, htr, htex]

/-- C10: when the index handle is `None`, the combined classifier is exactly
the relevance check — the novelty sub-check never runs. -/
theorem classify_none_index_equals_relevance_alone (env : Env) (t c p : String) :
    check_if_is_new_car_accident_related_news env none t c p
      = check_if_related_to_car_accidents env t c := by
  unfold check_if_is_new_car_accident_related_news
  cases hr : check_if_related_to_car_accidents env t c with
  | mk r tr =>
      cases r with
      | error e => rfl
      | ok b => cases b <;> rfl

/-- C1: the sink insert is atomic-conditional — it succeeds exactly when no
record with the same `news_url` is present; on conflict it reports failure and
leaves the store unchanged; inserting the same `news_url` twice (even with
different field contents) leaves exactly one record for that URL and the
second insert reports failure. -/
theorem insert_write_once (now now2 : String) (store : Store) (a b : Article)
    (hsame : b.news_url = a.news_url) :
    ((DynamoDB.insert store now a).1 = true ↔ DynamoDB.query store a.news_url = false)
    ∧ (DynamoDB.query store a.news_url = true →
        DynamoDB.insert store now a = (false, store))
    ∧ (DynamoDB.query store a.news_url = false →
        (DynamoDB.insert store now a).1 = true
        ∧ DynamoDB.insert (DynamoDB.insert store now a).2 now2 b
            = (false, (DynamoDB.insert store now a).2)
        ∧ urlCount (DynamoDB.insert store now a).2 a.news_url = 1
        ∧ urlCount (DynamoDB.insert (DynamoDB.insert store now a).2 now2 b).2 a.news_url
            = 1) := by
  unfold DynamoDB.insert DynamoDB.query DynamoDB.hasUrl urlCount
  refine ⟨?_, ?_, ?_⟩
  · cases hh : store.any (fun s => s.news_url == a.news_url) <;> simp [hh]
  · intro h
    simp [h]
  · intro h
    have hfil : store.filter (fun s => s.news_url == a.news_url) = [] := by
      rw [List.filter_eq_nil_iff]
      intro x hx
      have := (List.any_eq_false).mp h x hx
      simpa using this
    simp [h, hsame, List.any_append, List.filter_append, hfil]

/-- Witness for `insert_write_once` at a concrete store and article pair. -/
theorem insert_write_once_witness :
    ((DynamoDB.insert [] "n1" artW).1 = true ↔ DynamoDB.query [] artW.news_url = false)
    ∧ (DynamoDB.query [] artW.news_url = true →
        DynamoDB.insert [] "n1" artW = (false, []))
    ∧ (DynamoDB.query [] artW.news_url = false →
        (DynamoDB.insert [] "n1" artW).1 = true
        ∧ DynamoDB.insert (DynamoDB.insert [] "n1" artW).2 "n2" artW2
            = (false, (DynamoDB.insert [] "n1" artW).2)
        ∧ urlCount (DynamoDB.insert [] "n1" artW).2 artW.news_url = 1
        ∧ urlCount (DynamoDB.insert (DynamoDB.insert [] "n1" artW).2 "n2" artW2).2
            artW.news_url = 1) :=
  insert_write_once "n1" "n2" [] artW artW2 rfl

/-- C2: the combined classifier answers true exactly when the relevance check
answered yes and the (index-guarded) duplicate check did not find a duplicate;
when relevance fails the trace is exactly the relevance check's trace, so the
novelty sub-check was never evaluated. -/
theorem classify_is_relevant_and_not_duplicate (env : Env)
    (pc_index : Option PcIndex) (t c p : String) (r d : Bool)
    (tr1 tr2 : List Event)
    (hrel : check_if_related_to_car_accidents env t c = (.ok r, tr1))
    (hdup : r = true → pc_index = some () →
      check_if_news_already_exists env t c p = (.ok d, tr2)) :
    (check_if_is_new_car_accident_related_news env pc_index t c p).1
        = .ok (r && !(pc_index.isSome && d))
    ∧ (r = false →
        (check_if_is_new_car_accident_related_news env pc_index t c p).2 = tr1) := by
  unfold check_if_is_new_car_accident_related_news
  rw [hrel]
  cases r with
  | false => simp
  | true =>
      cases pc_index with
      | none => simp
      | some u =>
          cases u
          rw [hdup rfl rfl]
          simp

/-- Witness for `classify_is_relevant_and_not_duplicate`: a relevant article
with no stored neighbor is classified as new-and-relevant. -/
theorem classify_is_relevant_and_not_duplicate_witness :
    (check_if_is_new_car_accident_related_news envYesNoDup (some ()) "t" "c" "p").1
      = .ok true := by
  have h := (classify_is_relevant_and_not_duplicate envYesNoDup (some ()) "t" "c" "p"
    true false [Event.chat (ChatPrompt.relevance "t" "c")]
    [Event.embed (queryText "t" "c"), Event.vquery (some 0) 1]
    rfl (fun _ _ => rfl)).1
  simpa using h

/-- C6 (amended): the relevance check answers false for any well-formed answer
other than `"yes"`, but a failed chat call propagates its exception and a
well-formed JSON response without an `"answer"` key raises a KeyError — only
non-yes answers fail closed, failures do not. -/
theorem relevance_fail_closed_amended (env : Env) (t c : String) :
    (∀ (j : JsonObj) (ans : String),
        env.chat (ChatPrompt.relevance t c) = .ok j →
        jsonGet j "answer" = .ok ans →
        check_if_related_to_car_accidents env t c
          = (.ok (ans == "yes"), [Event.chat (ChatPrompt.relevance t c)]))
    ∧ (∀ e, env.chat (ChatPrompt.relevance t c) = .error e →
        check_if_related_to_car_accidents env t c
          = (.error e, [Event.chat (ChatPrompt.relevance t c)]))
    ∧ (∀ j, env.chat (ChatPrompt.relevance t c) = .ok j →
        j.lookup "answer" = none →
        check_if_related_to_car_accidents env t c
          = (.error "KeyError: answer", [Event.chat (ChatPrompt.relevance t c)])) := by
  refine ⟨?_, ?_, ?_⟩
  · intro j ans hj hans
    unfold check_if_related_to_car_accidents openai_chat
    rw [hj]
    simp [hans]
  · intro e he
    unfold check_if_related_to_car_accidents openai_chat
    rw [he]
  · intro j hj hnone
    unfold check_if_related_to_car_accidents openai_chat
    rw [hj]
    simp [jsonGet, hnone]

/-- Witness for `relevance_fail_closed_amended`: a "no" answer yields false;
a failed call yields the propagated error. -/
theorem relevance_fail_closed_amended_witness :
    check_if_related_to_car_accidents envNo "w" "x"
      = (.ok false, [Event.chat (ChatPrompt.relevance "w" "x")])
    ∧ (check_if_related_to_car_accidents envChatFail "w" "x").1
      = .error "APIConnectionError" := by
  constructor
  · exact (relevance_fail_closed_amended envNo "w" "x").1 [("answer", "no")] "no" rfl rfl
  · rw [(relevance_fail_closed_amended envChatFail "w" "x").2.1 "APIConnectionError" rfl]

/-- C6 counterexample: a failed LLM call makes the relevance check raise, not
return false as the claim states. -/
theorem relevance_check_propagates_chat_failure :
    (check_if_related_to_car_accidents envChatFail "t" "c").1 = .error "APIConnectionError"
    ∧ (check_if_related_to_car_accidents envChatFail "t" "c").1 ≠ .ok false := by
  refine ⟨rfl, ?_⟩
  intro h
  rw [show (check_if_related_to_car_accidents envChatFail "t" "c").1
      = Except.error "APIConnectionError" from rfl] at h
  exact Except.noConfusion h

/-- C7: the duplicate check queries the vector store with `top_k = 1`; when no
returned match scores strictly above 0.7 it answers false without any chat
call (the trace holds exactly the embedding and the top-1 query); when the
single returned neighbor scores strictly above 0.7 it asks the same-news
question and answers exactly the LLM's yes/no. -/
theorem duplicate_check_top1_threshold_llm (env : Env) (t c p : String)
    (v : Nat) (ms : List PcMatch)
    (hemb : env.embedClient (queryText t c) = .ok v)
    (hq : env.pcQuery v 1 = .ok ms) :
    ((∀ m ∈ ms, ¬ simThreshold < m.score) →
      check_if_news_already_exists env t c p
        = (.ok false, [Event.embed (queryText t c), Event.vquery (some v) 1]))
    ∧ (∀ m : PcMatch, ms = [m] → simThreshold < m.score →
        ∀ (j : JsonObj) (ans : String),
          env.chat (ChatPrompt.sameNews t c p m.metadata) = .ok j →
          jsonGet j "answer" = .ok ans →
          check_if_news_already_exists env t c p
            = (.ok (ans == "yes"),
               [Event.embed (queryText t c), Event.vquery (some v) 1,
                Event.chat (ChatPrompt.sameNews t c p m.metadata)])) := by
  constructor
  · intro hlow
    have hF : firstAboveThreshold ms = none := firstAboveThreshold_eq_none ms hlow
    simp [check_if_news_already_exists, get_similar_news, get_embedding_openai,
      pcQueryCall, openai_chat, hemb, hq, hF, Except.map]
  · intro m hm hsc j ans hj hans
    subst hm
    have hF : firstAboveThreshold [m] = some m.metadata := by
      unfold firstAboveThreshold
      rw [if_pos hsc]
    simp [check_if_news_already_exists, get_similar_news, get_embedding_openai,
      pcQueryCall, openai_chat, hemb, hq, hF, Except.map, hj, hans]

/-- Witness for `duplicate_check_top1_threshold_llm`: with an empty result no
duplicate is reported and no chat happens; with a 0.9-scoring neighbor and a
yes answer a duplicate is reported. -/
theorem duplicate_check_top1_threshold_llm_witness :
    check_if_news_already_exists envYesNoDup "t" "c" "p"
      = (.ok false, [Event.embed (queryText "t" "c"), Event.vquery (some 0) 1])
    ∧ (check_if_news_already_exists envDupYes "t" "c" "p").1 = .ok true := by
  constructor
  · exact (duplicate_check_top1_threshold_llm envYesNoDup "t" "c" "p" 0 [] rfl rfl).1
      (by simp)
  · have h := (duplicate_check_top1_threshold_llm envDupYes "t" "c" "p" 3
      [{ score := scoreHi, metadata := mdHi }] rfl rfl).2
      { score := scoreHi, metadata := mdHi } rfl
      (by unfold simThreshold scoreHi; decide)
      [("answer", "yes")] "yes" rfl rfl
    rw [h]
    rfl

/-- C8 (amended): a failure of the similarity query during the novelty check
is not converted to "no duplicate" — the exception propagates out of the
duplicate check; an embedding failure produces a `None` query vector, which
itself makes the query call raise. -/
theorem similarity_failure_propagates_amended (env : Env) (t c p : String) :
    (∀ e, env.embedClient (queryText t c) = .error e →
      (check_if_news_already_exists env t c p).1
        = .error "Pinecone query: vector is None")
    ∧ (∀ (v : Nat) (e : PyErr),
        env.embedClient (queryText t c) = .ok v → env.pcQuery v 1 = .error e →
        (check_if_news_already_exists env t c p).1 = .error e) := by
  constructor
  · intro e he
    simp [check_if_news_already_exists, get_similar_news, get_embedding_openai,
      pcQueryCall, openai_chat, he, Except.map]
  · intro v e he hq
    simp [check_if_news_already_exists, get_similar_news, get_embedding_openai,
      pcQueryCall, openai_chat, he, hq, Except.map]

/-- Witness for `similarity_failure_propagates_amended` with a failing
embedding call and with a failing vector query. -/
theorem similarity_failure_propagates_amended_witness :
    (check_if_news_already_exists envEmbedFail "t" "c" "p").1
      = .error "Pinecone query: vector is None"
    ∧ (check_if_news_already_exists envQueryFail "t2" "c2" "p2").1
      = .error "Pinecone ServiceException" :=
  ⟨(similarity_failure_propagates_amended envEmbedFail "t" "c" "p").1 "EmbedError" rfl,
   (similarity_failure_propagates_amended envQueryFail "t2" "c2" "p2").2 0
     "Pinecone ServiceException" rfl rfl⟩

/-- C8 counterexample: when the vector query raises, the duplicate check
raises too, instead of returning "no duplicate found" as the claim states. -/
theorem similarity_query_failure_raises :
    (check_if_news_already_exists envQueryFail "t" "c" "p").1
      = .error "Pinecone ServiceException"
    ∧ (check_if_news_already_exists envQueryFail "t" "c" "p").1 ≠ .ok false := by
  refine ⟨rfl, ?_⟩
  intro h
  rw [show (check_if_news_already_exists envQueryFail "t" "c" "p").1
      = Except.error "Pinecone ServiceException" from rfl] at h
  exact Except.noConfusion h

/-- The rewrite call performs exactly one chat call. -/
theorem generate_content_trace (env : Env) (t c : String) :
    (generate_content_using_AI env t c).2 = [Event.chat (ChatPrompt.rewrite t c)] :=
  rfl

/-- Explicit result of a KTLA loop-body run on a fresh, rejected candidate. -/
theorem ktla_rejected_eq (env : Env) (db : Store) (vidx : VIndex)
    (a : RawArticle) (tc : List Event)
    (hq : DynamoDB.query db a.news_url = false)
    (hc : check_if_is_new_car_accident_related_news env (some ())
        a.title a.content a.posted_time = (.ok false, tc)) :
    ktlaProcess env db vidx a =
      { outcome := .ok none
        db := db ++ [rejectedStored a env.now]
        vidx := vidx
        trace := Event.dbGet a.news_url :: (tc ++ [Event.dbPut a.news_url]) } := by
  have hq' : DynamoDB.hasUrl db a.news_url = false := hq
  simp [ktlaProcess, hq, hc, DynamoDB.insert, hq', rejectedStored]

/-- Explicit result of a KTLA loop-body run on a fresh, accepted candidate
whose rewrite, retitle and upsert-embedding calls succeed. -/
theorem ktla_accepted_eq (env : Env) (db : Store) (vidx : VIndex)
    (a : RawArticle) (tc tg : List Event) (cai cta seo one nt : String) (v : Nat)
    (hq : DynamoDB.query db a.news_url = false)
    (hc : check_if_is_new_car_accident_related_news env (some ())
        a.title a.content a.posted_time = (.ok true, tc))
    (hg : generate_content_using_AI env a.title a.content
        = (.ok (cai, cta, seo, one), tg))
    (hr : env.retitleChat a.title a.content = .ok nt)
    (he : env.embedClient (queryText nt cai) = .ok v) :
    ktlaProcess env db vidx a =
      { outcome := .ok (some (acceptedArtKtla a nt cai cta seo one))
        db := db ++ [acceptedStoredKtla a env.now nt cai cta seo one]
        vidx := vindexPut vidx (acceptedEntry a nt cai v)
        trace := Event.dbGet a.news_url ::
          (tc ++ tg ++ [Event.retitle a.title a.content, Event.dbPut a.news_url,
            Event.embed (queryText nt cai), Event.vupsert ("pg-" ++ a.news_url)]) } := by
  have hq' : DynamoDB.hasUrl db a.news_url = false := hq
  simp [ktlaProcess, hq, hc, hg, generate_title_again, hr, DynamoDB.insert, hq',
    upsert_into_pinecone_index, get_embedding_openai, he, acceptedArtKtla,
    acceptedStoredKtla, acceptedEntry]

/-- Explicit result of a CBS8 story-processing run on a fresh, rejected
candidate. -/
theorem cbs8_rejected_eq (env : Env) (db : Store) (vidx : VIndex)
    (a : RawArticle) (tc : List Event)
    (hq : DynamoDB.query db a.news_url = false)
    (hc : check_if_is_new_car_accident_related_news env (some ())
        a.title a.content a.posted_time = (.ok false, tc)) :
    cbs8Process env db vidx a =
      { retOk := true
        db := db ++ [rejectedStored a env.now]
        vidx := vidx
        collected := none
        trace := tc ++ [Event.dbPut a.news_url] } := by
  have hq' : DynamoDB.hasUrl db a.news_url = false := hq
  simp [cbs8Process, hc, DynamoDB.insert, hq', rejectedStored]

/-- Explicit result of a CBS8 story-processing run on a fresh, accepted
candidate whose rewrite, retitle and upsert-embedding calls succeed. -/
theorem cbs8_accepted_eq (env : Env) (db : Store) (vidx : VIndex)
    (a : RawArticle) (tc tg : List Event) (cai cta seo one nt : String) (v : Nat)
    (hq : DynamoDB.query db a.news_url = false)
    (hc : check_if_is_new_car_accident_related_news env (some ())
        a.title a.content a.posted_time = (.ok true, tc))
    (hg : generate_content_using_AI env a.title a.content
        = (.ok (cai, cta, seo, one), tg))
    (hr : env.retitleChat a.title a.content = .ok nt)
    (he : env.embedClient (queryText nt cai) = .ok v) :
    cbs8Process env db vidx a =
      { retOk := true
        db := db ++ [acceptedStoredCbs8 a env.now nt cai seo one]
        vidx := vindexPut vidx (acceptedEntry a nt cai v)
        collected := some (acceptedArtCbs8 a nt cai seo one)
        trace := tc ++ tg ++ [Event.retitle a.title a.content, Event.dbPut a.news_url,
          Event.embed (queryText nt cai), Event.vupsert ("pg-" ++ a.news_url)] } := by
  have hq' : DynamoDB.hasUrl db a.news_url = false := hq
  simp [cbs8Process, hc, hg, generate_title_again, hr, DynamoDB.insert, hq',
    upsert_into_pinecone_index, get_embedding_openai, he, acceptedArtCbs8,
    acceptedStoredCbs8, acceptedEntry]

/-- C3 counterexample: the CBS8 pipeline accepts `rawA` (the rewrite call did
return a non-empty call-to-action, second conjunct) yet the stored record has
`is_related = true` and `call_to_action = ""` — so the four AI-derived fields
of an accepted article are not all non-empty. -/
theorem accepted_cbs8_call_to_action_empty :
    ((cbs8Process envYesNoDup [] [] rawA).db.map
        (fun s => (s.is_related, s.call_to_action))) = [(true, "")]
    ∧ envYesNoDup.chat (ChatPrompt.rewrite rawA.title rawA.content)
        = .ok [("Rewritten article", "<p>Body</p>"),
               ("Call to action", "<h2>Act</h2>"),
               ("SEO-optimized title", "Seo Title"),
               ("One-sentence description", "Desc")] :=
  ⟨rfl, rfl⟩

/-- C3 (amended): a rejected article is stored with the four AI-derived fields
exactly empty and `is_related = false` in both embedded pipelines; an accepted
article is stored with `content`, `title_seo_optimized` and
`one_sentence_description` equal to the rewriter's outputs (hence non-empty
whenever those outputs are) and `is_related = true`; `call_to_action` is the
rewriter's output in the KTLA (lambda_function-2.py) pipeline but the empty
string in the CBS8 (lambda_function-4.py) pipeline. -/
theorem ai_fields_storage_amended (env : Env) (db : Store) (vidx : VIndex)
    (a : RawArticle) (tc tg : List Event) (cai cta seo one nt : String) (v : Nat) :
    (DynamoDB.query db a.news_url = false →
      check_if_is_new_car_accident_related_news env (some ())
          a.title a.content a.posted_time = (.ok false, tc) →
      (ktlaProcess env db vidx a).db = db ++ [rejectedStored a env.now]
      ∧ (cbs8Process env db vidx a).db = db ++ [rejectedStored a env.now]
      ∧ (rejectedStored a env.now).is_related = false
      ∧ (rejectedStored a env.now).content = ""
      ∧ (rejectedStored a env.now).call_to_action = ""
      ∧ (rejectedStored a env.now).title_seo_optimized = ""
      ∧ (rejectedStored a env.now).one_sentence_description = "")
    ∧ (DynamoDB.query db a.news_url = false →
      check_if_is_new_car_accident_related_news env (some ())
          a.title a.content a.posted_time = (.ok true, tc) →
      generate_content_using_AI env a.title a.content
          = (.ok (cai, cta, seo, one), tg) →
      env.retitleChat a.title a.content = .ok nt →
      env.embedClient (queryText nt cai) = .ok v →
      (ktlaProcess env db vidx a).db
          = db ++ [acceptedStoredKtla a env.now nt cai cta seo one]
      ∧ (cbs8Process env db vidx a).db
          = db ++ [acceptedStoredCbs8 a env.now nt cai seo one]
      ∧ (acceptedStoredKtla a env.now nt cai cta seo one).is_related = true
      ∧ (acceptedStoredKtla a env.now nt cai cta seo one).content = cai
      ∧ (acceptedStoredKtla a env.now nt cai cta seo one).call_to_action = cta
      ∧ (acceptedStoredKtla a env.now nt cai cta seo one).title_seo_optimized = seo
      ∧ (acceptedStoredKtla a env.now nt cai cta seo one).one_sentence_description
          = one
      ∧ (acceptedStoredCbs8 a env.now nt cai seo one).is_related = true
      ∧ (acceptedStoredCbs8 a env.now nt cai seo one).content = cai
      ∧ (acceptedStoredCbs8 a env.now nt cai seo one).call_to_action = ""
      ∧ (acceptedStoredCbs8 a env.now nt cai seo one).title_seo_optimized = seo
      ∧ (acceptedStoredCbs8 a env.now nt cai seo one).one_sentence_description
          = one) := by
  constructor
  · intro hq hc
    rw [ktla_rejected_eq env db vidx a tc hq hc,
      cbs8_rejected_eq env db vidx a tc hq hc]
    exact ⟨rfl, rfl, rfl, rfl, rfl, rfl, rfl⟩
  · intro hq hc hg hr he
    rw [ktla_accepted_eq env db vidx a tc tg cai cta seo one nt v hq hc hg hr he,
      cbs8_accepted_eq env db vidx a tc tg cai cta seo one nt v hq hc hg hr he]
    exact ⟨rfl, rfl, rfl, rfl, rfl, rfl, rfl, rfl, rfl, rfl, rfl, rfl⟩

/-- Witness for `ai_fields_storage_amended`: both branches at concrete
environments (rejection under `envNo`, acceptance under `envYesNoDup`). -/
theorem ai_fields_storage_amended_witness :
    (ktlaProcess envNo [] [] rawA).db = [rejectedStored rawA envNo.now]
    ∧ (ktlaProcess envYesNoDup [] [] rawA).db
        = [acceptedStoredKtla rawA envYesNoDup.now "Better Crash on I-5"
            "<p>Body</p>" "<h2>Act</h2>" "Seo Title" "Desc"]
    ∧ (cbs8Process envYesNoDup [] [] rawA).db
        = [acceptedStoredCbs8 rawA envYesNoDup.now "Better Crash on I-5"
            "<p>Body</p>" "Seo Title" "Desc"] := by
  refine ⟨?_, ?_, ?_⟩
  · exact ((ai_fields_storage_amended envNo [] [] rawA
      [Event.chat (ChatPrompt.relevance rawA.title rawA.content)] []
      "" "" "" "" "" 0).1 rfl rfl).1
  · exact ((ai_fields_storage_amended envYesNoDup [] [] rawA
      [Event.chat (ChatPrompt.relevance rawA.title rawA.content),
       Event.embed (queryText rawA.title rawA.content), Event.vquery (some 0) 1]
      [Event.chat (ChatPrompt.rewrite rawA.title rawA.content)]
      "<p>Body</p>" "<h2>Act</h2>" "Seo Title" "Desc" "Better Crash on I-5" 0).2
      rfl rfl rfl rfl rfl).1
  · exact ((ai_fields_storage_amended envYesNoDup [] [] rawA
      [Event.chat (ChatPrompt.relevance rawA.title rawA.content),
       Event.embed (queryText rawA.title rawA.content), Event.vquery (some 0) 1]
      [Event.chat (ChatPrompt.rewrite rawA.title rawA.content)]
      "<p>Body</p>" "<h2>Act</h2>" "Seo Title" "Desc" "Better Crash on I-5" 0).2
      rfl rfl rfl rfl rfl).2.1

/-- C4: for an accepted article the persisted display title is exactly the
retitle output applied to the original title and content; the trace restricted
to retitle/insert events is `[retitle, dbPut]` — the retitle runs exactly
once and before the sink insert — in both embedded pipelines. -/
theorem retitle_overwrites_title_once_before_insert (env : Env) (db : Store)
    (vidx : VIndex) (a : RawArticle) (tc tg : List Event)
    (cai cta seo one nt : String) (v : Nat)
    (hq : DynamoDB.query db a.news_url = false)
    (hc : check_if_is_new_car_accident_related_news env (some ())
        a.title a.content a.posted_time = (.ok true, tc))
    (hg : generate_content_using_AI env a.title a.content
        = (.ok (cai, cta, seo, one), tg))
    (hr : env.retitleChat a.title a.content = .ok nt)
    (he : env.embedClient (queryText nt cai) = .ok v) :
    ((ktlaProcess env db vidx a).db
        = db ++ [acceptedStoredKtla a env.now nt cai cta seo one]
      ∧ (acceptedStoredKtla a env.now nt cai cta seo one).title = nt
      ∧ ((ktlaProcess env db vidx a).trace).filter retitleOrPut
          = [Event.retitle a.title a.content, Event.dbPut a.news_url])
    ∧ ((cbs8Process env db vidx a).db
        = db ++ [acceptedStoredCbs8 a env.now nt cai seo one]
      ∧ (acceptedStoredCbs8 a env.now nt cai seo one).title = nt
      ∧ ((cbs8Process env db vidx a).trace).filter retitleOrPut
          = [Event.retitle a.title a.content, Event.dbPut a.news_url]) := by
  have htc : tc.filter retitleOrPut = [] := by
    have h := classify_trace_filter env (some ()) a.title a.content a.posted_time
      retitleOrPut (fun _ => rfl) (fun _ => rfl) (fun _ _ => rfl)
    rw [hc] at h
    exact h
  have htg : tg = [Event.chat (ChatPrompt.rewrite a.title a.content)] := by
    have h := generate_content_trace env a.title a.content
    rw [hg] at h
    exact h
  constructor
  · rw [ktla_accepted_eq env db vidx a tc tg cai cta seo one nt v hq hc hg hr he]
    refine ⟨rfl, rfl, ?_⟩
    simp [htg, List.filter_append, List.filter, htc, retitleOrPut]
  · rw [cbs8_accepted_eq env db vidx a tc tg cai cta seo one nt v hq hc hg hr he]
    refine ⟨rfl, rfl, ?_⟩
    simp [htg, List.filter_append, List.filter, htc, retitleOrPut]

/-- Witness for `retitle_overwrites_title_once_before_insert` at the concrete
accepting environment. -/
theorem retitle_overwrites_title_once_before_insert_witness :
    ((ktlaProcess envYesNoDup [] [] rawA).trace).filter retitleOrPut
      = [Event.retitle rawA.title rawA.content, Event.dbPut rawA.news_url]
    ∧ (acceptedStoredKtla rawA envYesNoDup.now "Better Crash on I-5"
        "<p>Body</p>" "<h2>Act</h2>" "Seo Title" "Desc").title
      = "Better Crash on I-5" := by
  have h := retitle_overwrites_title_once_before_insert envYesNoDup [] [] rawA
    [Event.chat (ChatPrompt.relevance rawA.title rawA.content),
     Event.embed (queryText rawA.title rawA.content), Event.vquery (some 0) 1]
    [Event.chat (ChatPrompt.rewrite rawA.title rawA.content)]
    "<p>Body</p>" "<h2>Act</h2>" "Seo Title" "Desc" "Better Crash on I-5" 0
    rfl rfl rfl rfl rfl
  exact ⟨h.1.2.2, h.1.2.1⟩

/-- C9: a rejected article never reaches the vector index (the index is
unchanged), and an accepted article produces exactly one upsert whose entry is
keyed `pg-{news_url}`, carries metadata `{title, content, posted_time}` of the
upserted (title, content, posted_time), and holds the embedding of
`Title: {title}\n\nContent: {content}` — in both embedded pipelines. -/
theorem vector_index_only_accepted_articles (env : Env) (db : Store)
    (vidx : VIndex) (a : RawArticle) (tc tg : List Event)
    (cai cta seo one nt : String) (v : Nat) :
    (DynamoDB.query db a.news_url = false →
      check_if_is_new_car_accident_related_news env (some ())
          a.title a.content a.posted_time = (.ok false, tc) →
      (ktlaProcess env db vidx a).vidx = vidx
      ∧ (cbs8Process env db vidx a).vidx = vidx)
    ∧ (DynamoDB.query db a.news_url = false →
      check_if_is_new_car_accident_related_news env (some ())
          a.title a.content a.posted_time = (.ok true, tc) →
      generate_content_using_AI env a.title a.content
          = (.ok (cai, cta, seo, one), tg) →
      env.retitleChat a.title a.content = .ok nt →
      env.embedClient (queryText nt cai) = .ok v →
      (ktlaProcess env db vidx a).vidx = vindexPut vidx (acceptedEntry a nt cai v)
      ∧ (cbs8Process env db vidx a).vidx = vindexPut vidx (acceptedEntry a nt cai v)
      ∧ (acceptedEntry a nt cai v).id = "pg-" ++ a.news_url
      ∧ (acceptedEntry a nt cai v).metadata
          = { title := nt, content := cai, posted_time := a.posted_time }
      ∧ env.embedClient (queryText nt cai) = .ok (acceptedEntry a nt cai v).values) := by
  constructor
  · intro hq hc
    rw [ktla_rejected_eq env db vidx a tc hq hc,
      cbs8_rejected_eq env db vidx a tc hq hc]
    exact ⟨rfl, rfl⟩
  · intro hq hc hg hr he
    rw [ktla_accepted_eq env db vidx a tc tg cai cta seo one nt v hq hc hg hr he,
      cbs8_accepted_eq env db vidx a tc tg cai cta seo one nt v hq hc hg hr he]
    exact ⟨rfl, rfl, rfl, rfl, he⟩

/-- Witness for `vector_index_only_accepted_articles`: the rejecting
environment leaves the index unchanged, the accepting one adds the expected
entry. -/
theorem vector_index_only_accepted_articles_witness :
    (ktlaProcess envNo [] [] rawA).vidx = []
    ∧ (ktlaProcess envYesNoDup [] [] rawA).vidx
        = [acceptedEntry rawA "Better Crash on I-5" "<p>Body</p>" 0] := by
  constructor
  · exact ((vector_index_only_accepted_articles envNo [] [] rawA
      [Event.chat (ChatPrompt.relevance rawA.title rawA.content)] []
      "" "" "" "" "" 0).1 rfl rfl).1
  · exact ((vector_index_only_accepted_articles envYesNoDup [] [] rawA
      [Event.chat (ChatPrompt.relevance rawA.title rawA.content),
       Event.embed (queryText rawA.title rawA.content), Event.vquery (some 0) 1]
      [Event.chat (ChatPrompt.rewrite rawA.title rawA.content)]
      "<p>Body</p>" "<h2>Act</h2>" "Seo Title" "Desc" "Better Crash on I-5" 0).2
      rfl rfl rfl rfl rfl).1

/-- C5 (amended): in lambda_function-4.py's orchestrator a source whose run
raises is equivalent to a source contributing zero articles — the remaining
sources still run, their accepted articles are still posted, and the handler
still returns 200. -/
theorem v4_handler_isolates_source_failures
    (runs : SourceV4 → Except PyErr (List Article)) :
    lambda_handler_v4 true runs
      = lambda_handler_v4 true
          (fun s => match runs s with
            | .error _ => .ok []
            | .ok l => .ok l)
    ∧ (lambda_handler_v4 true runs).1 = 200 := by
  rcases h1 : runs .cbs8 with e1 | l1 <;>
    rcases h2 : runs .eastBay with e2 | l2 <;>
      rcases h3 : runs .fox with e3 | l3 <;>
        rcases h4 : runs .nbcBay with e4 | l4 <;>
          simp [lambda_handler_v4, h1, h2, h3, h4]

/-- C5 counterexample: in lambda_function-2.py's orchestrator a raise in the
KTLA run aborts the whole invocation — the handler returns 500 and posts
nothing, even though the KSBY source produced an accepted article. -/
theorem v2_handler_source_failure_aborts_run :
    lambda_handler_v2 true runsBadV2 = (500, none)
    ∧ runsBadV2 .ksby = .ok [artX]
    ∧ lambda_handler_v2 true runsBadV2 ≠ (200, some [artX]) := by
  refine ⟨rfl, rfl, ?_⟩
  intro h
  have h5 : (500 : Nat) = 200 := congrArg Prod.fst h
  exact absurd h5 (by decide)

end NewsScraper
